import Mathlib

/-!
Shallow embedding of the Checker Master scheduling core
(`src/ctf_gameserver/checker/master.py`) and proofs about it.

Modelling conventions:
- Python floats (durations, monotonic clock values) are embedded as exact
  rationals; Python ints as `Int`/`Nat`.
- Fallible Python code is embedded as `Except PyError`.  A division whose
  divisor can be zero is embedded with an explicit branch returning
  `PyError.zeroDivisionError`, which is exactly the exception Python raises
  at that site.
- External side effects (database calls, Supervisor calls, logging) are
  recorded in an event trace, so that ordering claims become statements
  about the trace.
-/

namespace CheckerMaster

/-- Kinds of Python exceptions that the embedded code can raise or observe. -/
inductive PyError where
  | keyError
  | typeError
  | valueError
  | binasciiError
  | zeroDivisionError
  | dbError
deriving DecidableEq

/-- Modelled from the spec: the four protocol action identifiers
(`ACTION_FLAG` and friends are imported from the Supervisor module, whose
source is not part of the scheduling core under scrutiny; the spec fixes
exactly four recognized actions). -/
def ACTION_FLAG : String := "FLAG"

/-- Modelled from the spec: see `ACTION_FLAG`. -/
def ACTION_LOAD : String := "LOAD"

/-- Modelled from the spec: see `ACTION_FLAG`. -/
def ACTION_STORE : String := "STORE"

/-- Modelled from the spec: see `ACTION_FLAG`. -/
def ACTION_RESULT : String := "RESULT"

/-- The immutable configuration of one `MasterLoop` instance
(master.py lines 173-197): constructor arguments plus the control info read
once at startup.  Durations are seconds, as exact rationals. -/
structure Config where
  tick_duration : ℚ
  flag_valid_ticks : ℤ
  max_check_duration : ℚ
  checker_count : ℤ
  interval : ℚ
  service_id : ℤ
  service_name : String
  flag_secret : String

/-- The `task_info` metadata attached to a request (master.py lines 305-309). -/
structure TaskInfo where
  team : ℤ
  tick : ℤ
  service : String
deriving DecidableEq

/-- One unit of work fetched from the backlog (master.py line 297). -/
structure Task where
  team_id : ℤ
  tick : ℤ
deriving DecidableEq

/-- The `param` field of a request: the checkerlib sends either a dict of
strings or a plain string, depending on the action. -/
inductive ReqParam where
  | dict (entries : List (String × String))
  | str (s : String)
deriving DecidableEq

/-- A request pulled from the Supervisor queue (master.py line 208);
the one-shot reply handle is modelled by the step result instead. -/
structure Request where
  runner_id : ℕ
  action : String
  info : TaskInfo
  param : ReqParam
deriving DecidableEq

/-- The arguments of one call of the external `flag_lib.generate`
(master.py lines 255-256).  The FlagCodec is a pure external function, so two
calls with equal invocations produce structurally equal tokens. -/
structure FlagInvocation where
  team : ℤ
  service_id : ℤ
  secret : String
  payload : Option (List ℕ)
  expiration : ℚ
deriving DecidableEq

/-- A reply value carried back to a runner. -/
inductive Resp where
  | flagResp (inv : FlagInvocation)
  | loadResp (blob : Option String)
deriving DecidableEq

/-- External side effects of the scheduling core, recorded in traces. -/
inductive Event where
  | getCurrentTick
  | terminateAllRunners
  | updateLaunchParams
  | getNewTasks
  | startRunner (team : ℤ) (tick : ℤ)
  | loadState (team : ℤ) (key : String)
  | storeState (team : ℤ) (key : String) (data : String)
  | commitResult (team : ℤ) (tick : ℤ) (code : ℤ)
  | logResult (team : ℤ) (tick : ℤ) (code : ℤ)
  | logInvalidResult
  | logUnknownAction
  | logCommunicationError
deriving DecidableEq

/-- The external world as seen during one scheduler step: a snapshot of the
database interface (section 6 of the spec).  Fallible calls return `Except`. -/
structure Env where
  get_current_tick : ℤ
  get_task_count : ℕ
  get_new_tasks : Option ℤ → List Task
  load_state : ℤ → String → Except PyError (Option String)
  store_state : ℤ → String → String → Except PyError Unit
  commit_result : ℤ → ℤ → ℤ → Except PyError Unit

/-- Python dict lookup returning `none` where Python raises `KeyError`. -/
def dictGet (entries : List (String × String)) (k : String) : Option String :=
  (entries.find? (fun p => p.1 == k)).map (fun p => p.2)

/-- The value of one standard base64 alphabet character. -/
def base64Val (c : Char) : Option ℕ :=
  if 'A' ≤ c ∧ c ≤ 'Z' then some (c.toNat - 65)
  else if 'a' ≤ c ∧ c ≤ 'z' then some (c.toNat - 97 + 26)
  else if '0' ≤ c ∧ c ≤ '9' then some (c.toNat - 48 + 52)
  else if c = '+' then some 62
  else if c = '/' then some 63
  else none

/-- Decoding of base64 text four characters at a time, handling padding. -/
def base64DecodeChunks : List Char → Option (List ℕ)
  | [] => some []
  | a :: b :: c :: d :: rest => do
      let va ← base64Val a
      let vb ← base64Val b
      let n1 := va * 4 + vb / 16
      if c = '=' then
        if d = '=' ∧ rest = [] then pure [n1] else none
      else do
        let vc ← base64Val c
        let n2 := (vb % 16) * 16 + vc / 4
        if d = '=' then
          if rest = [] then pure [n1, n2] else none
        else do
          let vd ← base64Val d
          let rs ← base64DecodeChunks rest
          pure (n1 :: n2 :: ((vc % 4) * 64 + vd) :: rs)
  | _ => none

/-- Embeds `base64.b64decode` on strings: `none` models the raised
`binascii.Error`; the empty string decodes to the empty byte string. -/
def base64Decode (s : String) : Option (List ℕ) :=
  base64DecodeChunks s.toList

/-- Embeds the Python builtin `int(s)` for optional-sign decimal strings;
`none` models the raised `ValueError`. -/
def parseInt (s : String) : Option ℤ :=
  let cs := s.toList
  let signDigits : ℤ × List Char :=
    match cs with
    | '-' :: rest => (-1, rest)
    | '+' :: rest => (1, rest)
    | _ => (1, cs)
  let ds := signDigits.2
  if ds.isEmpty || ds.any (fun c => ! c.isDigit) then none
  else some (signDigits.1 *
    ((ds.foldl (fun acc c => acc * 10 + (c.toNat - 48)) 0 : ℕ) : ℤ))

/-- Modelled from the spec: the `CheckResult` enumeration lives in
`lib/checkresult.py`, which is not part of the source under scrutiny; the
spec describes it as an enumerated, closed set of outcome codes. -/
def validResultCodes : List ℤ := [0, 1, 2, 3, 4]

/-- Whether `CheckResult(n)` succeeds (see `validResultCodes`). -/
def isValidCheckResult (n : ℤ) : Bool := validResultCodes.contains n

/-- Embeds `MasterLoop.handle_flag_request` (master.py lines 245-256).
The returned `FlagInvocation` stands for the call of the external
`flag_lib.generate`, whose result is the reply token. -/
def handle_flag_request (cfg : Config) (now : ℚ) (info : TaskInfo)
    (params : ReqParam) : Except PyError FlagInvocation :=
  match params with
  | ReqParam.str _ => Except.error PyError.typeError
  | ReqParam.dict entries =>
    let payloadStep : Except PyError (Option (List ℕ)) :=
      match dictGet entries ("payload") with
      | none => Except.ok none
      | some s =>
        match base64Decode s with
        | none => Except.error PyError.binasciiError
        | some bs => Except.ok (some bs)
    match payloadStep with
    | Except.error e => Except.error e
    | Except.ok p0 =>
      let payload := if p0 = some [] then none else p0
      Except.ok
        { team := info.team
          service_id := cfg.service_id
          secret := cfg.flag_secret
          payload := payload
          expiration := now + cfg.tick_duration * (cfg.flag_valid_ticks : ℚ) }

/-- Embeds `MasterLoop.handle_load_request` (master.py lines 258-259),
recording the database call in the trace.  A non-string key makes the
database layer fail. -/
def handle_load_request (env : Env) (info : TaskInfo) (param : ReqParam) :
    List Event × Except PyError (Option String) :=
  match param with
  | ReqParam.dict _ => ([], Except.error PyError.typeError)
  | ReqParam.str key =>
    ([Event.loadState info.team key], env.load_state info.team key)

/-- Embeds `MasterLoop.handle_store_request` (master.py lines 261-263):
the two dict lookups raise `KeyError` when absent, before the database call. -/
def handle_store_request (env : Env) (info : TaskInfo) (param : ReqParam) :
    List Event × Except PyError Unit :=
  match param with
  | ReqParam.str _ => ([], Except.error PyError.typeError)
  | ReqParam.dict entries =>
    match dictGet entries ("key") with
    | none => ([], Except.error PyError.keyError)
    | some k =>
      match dictGet entries ("data") with
      | none => ([], Except.error PyError.keyError)
      | some d =>
        ([Event.storeState info.team k d], env.store_state info.team k d)

/-- Embeds `MasterLoop.handle_result_request` (master.py lines 265-283):
parse failures and unknown codes are caught, logged and dropped; a valid
code is logged and committed. -/
def handle_result_request (env : Env) (info : TaskInfo) (param : ReqParam) :
    List Event × Except PyError Unit :=
  match param with
  | ReqParam.dict _ => ([], Except.error PyError.typeError)
  | ReqParam.str s =>
    match parseInt s with
    | none => ([Event.logInvalidResult], Except.ok ())
    | some result =>
      if isValidCheckResult result then
        ([Event.logResult info.team info.tick result,
          Event.commitResult info.team info.tick result],
         env.commit_result info.team info.tick result)
      else ([Event.logInvalidResult], Except.ok ())

/-- The `local_tasks` intermediate of `update_launch_params`
(master.py line 322): `math.ceil(total_tasks / checker_count)`.  Exact
rational division followed by the ceiling. -/
def localTasks (cfg : Config) (env : Env) : ℤ :=
  ⌈(env.get_task_count : ℚ) / (cfg.checker_count : ℚ)⌉

/-- The `launch_timeframe` intermediate of `update_launch_params`
(master.py lines 324-325): tick duration minus the maximum check duration
minus the one-sixth margin. -/
def launchTimeframe (cfg : Config) : ℚ :=
  cfg.tick_duration - cfg.max_check_duration - cfg.tick_duration / 6

/-- The `intervals_per_timeframe` intermediate of `update_launch_params`
(master.py line 329): `math.floor(launch_timeframe / interval)`. -/
def intervalsPerTimeframe (cfg : Config) : ℤ :=
  ⌊launchTimeframe cfg / cfg.interval⌋

/-- Embeds `MasterLoop.update_launch_params` (master.py lines 313-330),
with the intermediates named by the three defs above, evaluated in the
order the source evaluates them.  The two `zeroDivisionError` branches are
not checks present in the source: they embed the `ZeroDivisionError` Python
raises at the corresponding division sites (the `checker_count` division at
line 322 and the `intervals_per_timeframe` division at line 330, plus the
`interval` division at line 329); `valueError` embeds the explicit
`raise ValueError` at line 327. -/
def update_launch_params (cfg : Config) (env : Env) : Except PyError ℤ :=
  if cfg.checker_count = 0 then Except.error PyError.zeroDivisionError
  else if launchTimeframe cfg ≤ 0 then Except.error PyError.valueError
  else if cfg.interval = 0 then Except.error PyError.zeroDivisionError
  else if intervalsPerTimeframe cfg = 0 then Except.error PyError.zeroDivisionError
  else Except.ok ⌈(localTasks cfg env : ℚ) / (intervalsPerTimeframe cfg : ℚ)⌉

/-- Checks the `if`/`elif` chain of `step` (master.py lines 214-221): whether
the action is one of the four recognized ones. -/
def knownAction (a : String) : Bool :=
  a == ACTION_FLAG || a == ACTION_LOAD || a == ACTION_STORE || a == ACTION_RESULT

/-- Dispatching of a known action to its handler (master.py lines 214-221),
returning the trace of external calls, and the reply value `resp`
(`none` for STORE and RESULT, which leave `resp = None`) or the raised
exception. -/
def dispatch (cfg : Config) (env : Env) (now : ℚ) (req : Request) :
    List Event × Except PyError (Option Resp) :=
  if req.action = ACTION_FLAG then
    match handle_flag_request cfg now req.info req.param with
    | Except.ok inv => ([], Except.ok (some (Resp.flagResp inv)))
    | Except.error e => ([], Except.error e)
  else if req.action = ACTION_LOAD then
    match handle_load_request env req.info req.param with
    | (evs, Except.ok blob) => (evs, Except.ok (some (Resp.loadResp blob)))
    | (evs, Except.error e) => (evs, Except.error e)
  else if req.action = ACTION_STORE then
    match handle_store_request env req.info req.param with
    | (evs, Except.ok _) => (evs, Except.ok none)
    | (evs, Except.error e) => (evs, Except.error e)
  else if req.action = ACTION_RESULT then
    match handle_result_request env req.info req.param with
    | (evs, Except.ok _) => (evs, Except.ok none)
    | (evs, Except.error e) => (evs, Except.error e)
  else ([], Except.ok none)

/-- Outcome of servicing one request inside `step`:
`reply = some r` means the one-shot handle was used to send `r`
(`req.send.send(resp)` at line 235); `reply = none` means the reply was
suppressed.  `terminated` records a `terminate_runner` call for the
offending runner. -/
structure ServiceResult where
  reply : Option (Option Resp)
  terminated : Bool
  events : List Event
deriving DecidableEq

/-- Embeds the request-servicing part of `MasterLoop.step`
(master.py lines 208-235): an unknown action terminates the runner and
suppresses the reply; an exception from a handler is caught by the bare
`except`, terminates the runner and skips the `else` that would send the
reply; otherwise the reply (possibly `None`) is sent. -/
def serviceRequest (cfg : Config) (env : Env) (now : ℚ) (req : Request) :
    ServiceResult :=
  if knownAction req.action then
    match dispatch cfg env now req with
    | (evs, Except.ok r) => ⟨some r, false, evs⟩
    | (evs, Except.error _) => ⟨none, true, evs ++ [Event.logCommunicationError]⟩
  else ⟨none, true, [Event.logUnknownAction]⟩

/-- Modelled from the spec: `RunnerSupervisor.terminate_runner` (the
Supervisor module is not part of the source under scrutiny) removes exactly
the runner with the given id from the pool. -/
def terminate_runner (runners : List ℕ) (rid : ℕ) : List ℕ :=
  runners.erase rid

/-- The mutable fields of `MasterLoop` touched by `launch_tasks`, plus the
Supervisor pool of live runner ids (`next_id` generates fresh ids for
started runners). -/
structure LaunchState where
  known_tick : ℤ
  tasks_per_launch : Option ℤ
  runners : List ℕ
  next_id : ℕ
deriving DecidableEq

/-- Result of one `launch_tasks` call: the new state, the trace of external
calls in order, and the propagated exception, if any. -/
structure LTResult where
  ls : LaunchState
  trace : List Event
  err : Option PyError
deriving DecidableEq

/-- The tail of `launch_tasks` (master.py lines 297-311): fetch a batch of
tasks bounded by `tasks_per_launch` and start one runner per task. -/
def fetchAndStart (env : Env) (ls : LaunchState) (tr : List Event) : LTResult :=
  let tasks := env.get_new_tasks ls.tasks_per_launch
  let newIds := (List.range tasks.length).map (fun j => ls.next_id + j)
  ⟨{ ls with runners := ls.runners ++ newIds, next_id := ls.next_id + tasks.length },
   tr ++ [Event.getNewTasks] ++ tasks.map (fun t => Event.startRunner t.team_id t.tick),
   none⟩

/-- Embeds `MasterLoop.launch_tasks` (master.py lines 285-311).  On a tick
change all runners are terminated, then the launch parameters are
recomputed (an exception there propagates, with `known_tick` and
`tasks_per_launch` left unchanged), then tasks are fetched and started. -/
def launch_tasks (cfg : Config) (env : Env) (ls : LaunchState) : LTResult :=
  if env.get_current_tick < 0 then ⟨ls, [Event.getCurrentTick], none⟩
  else if env.get_current_tick ≠ ls.known_tick then
    let ls1 : LaunchState := { ls with runners := [] }
    match update_launch_params cfg env with
    | Except.error e =>
        ⟨ls1,
         [Event.getCurrentTick, Event.terminateAllRunners, Event.updateLaunchParams],
         some e⟩
    | Except.ok k =>
        fetchAndStart env
          { ls1 with tasks_per_launch := some k, known_tick := env.get_current_tick }
          [Event.getCurrentTick, Event.terminateAllRunners, Event.updateLaunchParams]
  else fetchAndStart env ls [Event.getCurrentTick]

/-- Result of the catch-up `while` loop of `step`: final `last_launch`,
final launch state, number of launch passes performed, trace and
propagated exception. -/
structure LoopResult where
  last : ℚ
  ls : LaunchState
  passes : ℕ
  trace : List Event
  err : Option PyError
deriving DecidableEq

/-- Embeds the catch-up `while` loop of `step` (master.py lines 239-241):
while `now - last_launch >= interval`, advance `last_launch` by one interval
and perform one launch pass.  The monotonic clock is frozen at `now` for
the duration of the loop.  An exception from a pass propagates, aborting
the loop.  The loop terminates only for a positive interval (`main`
enforces `interval >= 3`), so positivity is a parameter. -/
def launchLoop (cfg : Config) (env : Env) (now : ℚ) (hI : 0 < cfg.interval)
    (last : ℚ) (ls : LaunchState) : LoopResult :=
  if h : cfg.interval ≤ now - last then
    let r := launch_tasks cfg env ls
    if r.err.isSome then
      ⟨last + cfg.interval, r.ls, 1, r.trace, r.err⟩
    else
      let rest := launchLoop cfg env now hI (last + cfg.interval) r.ls
      ⟨rest.last, rest.ls, rest.passes + 1, r.trace ++ rest.trace, rest.err⟩
  else ⟨last, ls, 0, [], none⟩
termination_by (⌈(now - last) / cfg.interval⌉).toNat
decreasing_by
  simp_wf
  have hx : (1 : ℚ) ≤ (now - last) / cfg.interval := (one_le_div hI).mpr h
  have heq : (now - (last + cfg.interval)) / cfg.interval
      = (now - last) / cfg.interval - 1 := by
    rw [show now - (last + cfg.interval) = (now - last) - cfg.interval by ring,
        sub_div, div_self (ne_of_gt hI)]
  rw [heq, Int.ceil_sub_one]
  exact ⟨by omega, lt_of_lt_of_le one_pos hx⟩

/-- The full mutable state of `MasterLoop` between steps, together with the
Supervisor request queue. -/
structure MasterState where
  ls : LaunchState
  last_launch : ℚ
  shutting_down : Bool
  queue : List Request
deriving DecidableEq

/-- Result of one `step` call: the return value `handled`, the reply sent on
the serviced request (if any), the new state, the number of launch passes,
the trace and the exception propagated out of the launch loop. -/
structure StepResult where
  handled : Bool
  reply : Option (Option Resp)
  state : MasterState
  passes : ℕ
  trace : List Event
  err : Option PyError
deriving DecidableEq

/-- Embeds `MasterLoop.step` (master.py lines 199-243): service at most one
request from the Supervisor queue, then, unless shutting down, run the
catch-up launch loop.  Request handling never propagates an exception
(bare `except` at line 229); the launch loop can. -/
def step (cfg : Config) (env : Env) (hI : 0 < cfg.interval) (now : ℚ)
    (st : MasterState) : StepResult :=
  match st.queue with
  | [] =>
    if st.shutting_down then ⟨false, none, st, 0, [], none⟩
    else
      let lr := launchLoop cfg env now hI st.last_launch st.ls
      ⟨false, none, { st with ls := lr.ls, last_launch := lr.last },
       lr.passes, lr.trace, lr.err⟩
  | req :: rest =>
    let sr := serviceRequest cfg env now req
    let runners1 :=
      if sr.terminated then terminate_runner st.ls.runners req.runner_id
      else st.ls.runners
    let st1 : MasterState :=
      { st with ls := { st.ls with runners := runners1 }, queue := rest }
    if st.shutting_down then ⟨true, sr.reply, st1, 0, sr.events, none⟩
    else
      let lr := launchLoop cfg env now hI st1.last_launch st1.ls
      ⟨true, sr.reply, { st1 with ls := lr.ls, last_launch := lr.last },
       lr.passes, sr.events ++ lr.trace, lr.err⟩

/-- Embeds `MasterLoop.get_running_script_count` (master.py lines 332-333). -/
def get_running_script_count (st : MasterState) : ℕ :=
  st.ls.runners.length

/-! ## Concrete instances used to exercise the theorems -/

/-- A nominal feasible configuration: launch timeframe 40 s, interval 10 s. -/
def cfgW : Config :=
  { tick_duration := 60, flag_valid_ticks := 3, max_check_duration := 10,
    checker_count := 2, interval := 10, service_id := 1,
    service_name := "svc", flag_secret := "sec" }

/-- A nominal environment snapshot with sixteen pending tasks. -/
def envW : Env :=
  { get_current_tick := 0, get_task_count := 16,
    get_new_tasks := fun _ => [],
    load_state := fun _ _ => Except.ok none,
    store_state := fun _ _ _ => Except.ok (),
    commit_result := fun _ _ _ => Except.ok () }

/-- The positive-interval fact for `cfgW`, shared by several step results. -/
theorem cfgW_interval_pos : (0 : ℚ) < cfgW.interval := by norm_num [cfgW]

/-- A configuration with a negative launch interval (the source never
validates the sign of `interval` inside `update_launch_params`). -/
def cfgNegI : Config := { cfgW with interval := -1, checker_count := 1 }

/-- Environment with ten pending tasks. -/
def envT10 : Env := { envW with get_task_count := 10 }

/-- An infeasible configuration with a nonzero checker count. -/
def cfgInfeasible : Config :=
  { cfgW with tick_duration := 6, max_check_duration := 5, interval := 1,
              checker_count := 1 }

/-- An infeasible configuration whose checker count is zero. -/
def cfgZeroCC : Config := { cfgInfeasible with checker_count := 0 }

/-- A feasible configuration whose launch timeframe (10 s) is shorter than
its interval (15 s). -/
def cfgTight : Config :=
  { cfgW with max_check_duration := 40, interval := 15, checker_count := 1 }

/-- The scheduler launch state right after construction
(master.py lines 193-196): `known_tick = -1`, no launch params, no runners. -/
def lsInit : LaunchState :=
  { known_tick := -1, tasks_per_launch := none, runners := [], next_id := 0 }

/-- A RESULT request whose payload does not parse as an integer. -/
def reqAbc : Request :=
  { runner_id := 6, action := ACTION_RESULT,
    info := { team := 1, tick := 0, service := "svc" },
    param := ReqParam.str ("abc") }

/-- A request carrying an action outside the protocol. -/
def reqBogus : Request :=
  { runner_id := 5, action := "FROB",
    info := { team := 1, tick := 0, service := "svc" },
    param := ReqParam.str ("x") }

/-- A well-formed STORE request. -/
def reqStore : Request :=
  { runner_id := 7, action := ACTION_STORE,
    info := { team := 1, tick := 0, service := "svc" },
    param := ReqParam.dict [(("key"), ("k")), (("data"), ("v"))] }

/-! ## C1: coverage guarantee of the launch-parameter computation -/

/-- C1, amended (the original claim fails for a negative interval, see the
counterexample): for every `checker_count >= 1`, `total_tasks >= 0`,
positive `interval`, and parameters for which `update_launch_params`
completes, the computed `local_tasks` equals
`ceil(total_tasks / checker_count)` and the computed `tasks_per_launch`
satisfies `tasks_per_launch * intervals_per_timeframe >= local_tasks`. -/
theorem c1_launch_params_coverage (cfg : Config) (env : Env) (k : ℤ)
    (hcc : 1 ≤ cfg.checker_count) (hint : 0 < cfg.interval)
    (hok : update_launch_params cfg env = Except.ok k) :
    localTasks cfg env = ⌈(env.get_task_count : ℚ) / (cfg.checker_count : ℚ)⌉ ∧
    localTasks cfg env ≤ k * intervalsPerTimeframe cfg := by
  refine ⟨rfl, ?_⟩
  have hcc0 : ¬ cfg.checker_count = 0 := by omega
  unfold update_launch_params at hok
  rw [if_neg hcc0] at hok
  split_ifs at hok with h2 h3 h4
  have hk : k = ⌈(localTasks cfg env : ℚ) / (intervalsPerTimeframe cfg : ℚ)⌉ := by
    exact (Except.ok.injEq _ _).mp hok.symm
  have hlt : 0 < launchTimeframe cfg := not_le.mp h2
  have hipt0 : 0 ≤ intervalsPerTimeframe cfg :=
    Int.floor_nonneg.mpr (div_nonneg hlt.le hint.le)
  have hipt1 : 1 ≤ intervalsPerTimeframe cfg := by omega
  have hiptQ : (0 : ℚ) < (intervalsPerTimeframe cfg : ℚ) := by
    exact_mod_cast lt_of_lt_of_le one_pos hipt1
  have hle : (localTasks cfg env : ℚ) / (intervalsPerTimeframe cfg : ℚ) ≤ (k : ℚ) := by
    rw [hk]
    exact_mod_cast Int.le_ceil _
  have := (div_le_iff₀ hiptQ).mp hle
  exact_mod_cast this

/-- Witness for C1 at a concrete feasible input: sixteen tasks split over
two checkers give eight local tasks, four intervals fit in the timeframe,
so two tasks per launch. -/
theorem c1_launch_params_coverage_witness :
    1 ≤ cfgW.checker_count ∧ (0 : ℚ) < cfgW.interval ∧
    update_launch_params cfgW envW = Except.ok 2 ∧
    (localTasks cfgW envW = ⌈(envW.get_task_count : ℚ) / (cfgW.checker_count : ℚ)⌉ ∧
     localTasks cfgW envW ≤ 2 * intervalsPerTimeframe cfgW) := by
  have hok : update_launch_params cfgW envW = Except.ok 2 := by
    norm_num [update_launch_params, localTasks, launchTimeframe,
              intervalsPerTimeframe, cfgW, envW]
  exact ⟨by norm_num [cfgW], by norm_num [cfgW], hok,
         c1_launch_params_coverage cfgW envW 2 (by norm_num [cfgW])
           (by norm_num [cfgW]) hok⟩

/-- C1 counterexample: with a negative interval (never validated inside
`update_launch_params`), the computation completes with
`tasks_per_launch = 0` although ten local tasks are pending, so the
coverage inequality of the claim fails. -/
theorem c1_counterexample :
    1 ≤ cfgNegI.checker_count ∧
    update_launch_params cfgNegI envT10 = Except.ok 0 ∧
    ¬ (localTasks cfgNegI envT10 ≤ 0 * intervalsPerTimeframe cfgNegI) := by
  refine ⟨by norm_num [cfgNegI, cfgW], ?_, ?_⟩
  · norm_num [update_launch_params, localTasks, launchTimeframe,
              intervalsPerTimeframe, cfgNegI, cfgW, envT10, envW]
  · norm_num [localTasks, cfgNegI, cfgW, envT10, envW]

/-! ## C3: infeasible schedules fail with the configuration error -/

/-- C3, amended (the original claim fails when `checker_count = 0`, see the
counterexample): for every configuration with a nonzero `checker_count` and
`max_check_duration + tick_duration/6 >= tick_duration`, and for any
interval value, `update_launch_params` fails with the configuration
`ValueError` instead of producing a `tasks_per_launch` value. -/
theorem c3_infeasible_fails (cfg : Config) (env : Env)
    (hcc : ¬ cfg.checker_count = 0)
    (hinf : cfg.tick_duration ≤ cfg.max_check_duration + cfg.tick_duration / 6) :
    update_launch_params cfg env = Except.error PyError.valueError := by
  have hlt : launchTimeframe cfg ≤ 0 := by unfold launchTimeframe; linarith
  unfold update_launch_params
  rw [if_neg hcc, if_pos hlt]

/-- Witness for C3 at a concrete infeasible input (tick 6 s, maximum check
duration 5 s, margin 1 s). -/
theorem c3_infeasible_fails_witness :
    ¬ cfgInfeasible.checker_count = 0 ∧
    cfgInfeasible.tick_duration ≤
      cfgInfeasible.max_check_duration + cfgInfeasible.tick_duration / 6 ∧
    update_launch_params cfgInfeasible envW = Except.error PyError.valueError :=
  ⟨by norm_num [cfgInfeasible, cfgW], by norm_num [cfgInfeasible, cfgW],
   c3_infeasible_fails cfgInfeasible envW (by norm_num [cfgInfeasible, cfgW])
     (by norm_num [cfgInfeasible, cfgW])⟩

/-- C3 counterexample: a configuration satisfying the infeasibility
hypothesis but with `checker_count = 0` fails with `ZeroDivisionError`
raised at the `local_tasks` division (master.py line 322), before the
feasibility check, rather than with the configuration `ValueError`. -/
theorem c3_counterexample :
    cfgZeroCC.tick_duration ≤
      cfgZeroCC.max_check_duration + cfgZeroCC.tick_duration / 6 ∧
    update_launch_params cfgZeroCC envW = Except.error PyError.zeroDivisionError ∧
    PyError.zeroDivisionError ≠ PyError.valueError := by
  refine ⟨by norm_num [cfgZeroCC, cfgInfeasible, cfgW], ?_, by decide⟩
  unfold update_launch_params
  rw [if_pos]
  norm_num [cfgZeroCC, cfgInfeasible, cfgW]

/-! ## C10: feasible timeframe shorter than the interval divides by zero -/

/-- C10: for every configuration that passes the feasibility check but
whose launch timeframe is shorter than the interval
(`0 < launch_timeframe < interval`), `intervals_per_timeframe` floors to
zero and `update_launch_params` raises an unguarded `ZeroDivisionError`
(master.py line 330) instead of the configuration error. -/
theorem c10_division_by_zero (cfg : Config) (env : Env)
    (hcc : ¬ cfg.checker_count = 0)
    (h1 : 0 < launchTimeframe cfg) (h2 : launchTimeframe cfg < cfg.interval) :
    update_launch_params cfg env = Except.error PyError.zeroDivisionError := by
  have hI : 0 < cfg.interval := lt_trans h1 h2
  have hiptz : intervalsPerTimeframe cfg = 0 := by
    unfold intervalsPerTimeframe
    rw [Int.floor_eq_zero_iff]
    exact Set.mem_Ico.mpr ⟨div_nonneg h1.le hI.le, (div_lt_one hI).mpr h2⟩
  unfold update_launch_params
  rw [if_neg hcc, if_neg (not_le.mpr h1), if_neg (ne_of_gt hI), if_pos hiptz]

/-- Witness for C10 at a concrete input: tick 60 s, maximum check duration
40 s, margin 10 s, so a 10 s timeframe against a 15 s interval. -/
theorem c10_division_by_zero_witness :
    ¬ cfgTight.checker_count = 0 ∧
    0 < launchTimeframe cfgTight ∧ launchTimeframe cfgTight < cfgTight.interval ∧
    update_launch_params cfgTight envW = Except.error PyError.zeroDivisionError :=
  ⟨by norm_num [cfgTight, cfgW],
   by norm_num [launchTimeframe, cfgTight, cfgW],
   by norm_num [launchTimeframe, cfgTight, cfgW],
   c10_division_by_zero cfgTight envW (by norm_num [cfgTight, cfgW])
     (by norm_num [launchTimeframe, cfgTight, cfgW])
     (by norm_num [launchTimeframe, cfgTight, cfgW])⟩

/-! ## C9: empty and absent FLAG payloads are interchangeable -/

/-- C9: a FLAG request carrying the payload parameter `""` and one carrying
no payload parameter at all invoke the FlagCodec identically with an absent
payload, with expiry `now + tick_duration * valid_ticks`, so the two
produce structurally indistinguishable tokens. -/
theorem c9_empty_payload_equiv (cfg : Config) (now : ℚ) (info : TaskInfo) :
    handle_flag_request cfg now info (ReqParam.dict [(("payload"), (""))]) =
      handle_flag_request cfg now info (ReqParam.dict []) ∧
    handle_flag_request cfg now info (ReqParam.dict []) =
      Except.ok { team := info.team, service_id := cfg.service_id,
                  secret := cfg.flag_secret, payload := none,
                  expiration :=
                    now + cfg.tick_duration * (cfg.flag_valid_ticks : ℚ) } := by
  constructor <;> rfl

/-! ## C7: malformed RESULT payloads are logged and dropped -/

/-- C7: a RESULT request whose parameter does not parse as an integer, or
parses to an integer outside the closed set of known outcome codes, is
logged and dropped: the runner is not terminated, a reply carrying no value
is still sent, exactly one log line is emitted, and no result is persisted
via `commit_result`. -/
theorem c7_invalid_result_dropped (cfg : Config) (env : Env) (now : ℚ)
    (req : Request) (s : String)
    (hact : req.action = ACTION_RESULT) (hparam : req.param = ReqParam.str s)
    (h : parseInt s = none ∨
         ∃ n, parseInt s = some n ∧ isValidCheckResult n = false) :
    (serviceRequest cfg env now req).terminated = false ∧
    (serviceRequest cfg env now req).events = [Event.logInvalidResult] ∧
    (serviceRequest cfg env now req).reply = some none ∧
    ∀ t tk c, Event.commitResult t tk c ∉ (serviceRequest cfg env now req).events := by
  have hres : handle_result_request env req.info req.param
      = ([Event.logInvalidResult], Except.ok ()) := by
    rw [hparam]
    rcases h with h1 | ⟨n, hn, hval⟩
    · simp [handle_result_request, h1]
    · simp [handle_result_request, hn, hval]
  have hdisp : dispatch cfg env now req
      = ([Event.logInvalidResult], Except.ok none) := by
    simp [dispatch, hact, ACTION_RESULT, ACTION_FLAG, ACTION_LOAD, ACTION_STORE,
          hres]
  have hknown : knownAction req.action = true := by
    rw [hact]; rfl
  refine ⟨?_, ?_, ?_, ?_⟩ <;>
    simp [serviceRequest, hknown, hdisp]

/-- Witness for C7: the RESULT request with payload `"abc"`. -/
theorem c7_invalid_result_dropped_witness :
    reqAbc.action = ACTION_RESULT ∧ reqAbc.param = ReqParam.str ("abc") ∧
    parseInt ("abc") = none ∧
    (serviceRequest cfgW envW 0 reqAbc).terminated = false ∧
    (serviceRequest cfgW envW 0 reqAbc).events = [Event.logInvalidResult] := by
  have h := c7_invalid_result_dropped cfgW envW 0 reqAbc ("abc") rfl rfl
    (Or.inl (by decide))
  exact ⟨rfl, rfl, by decide, h.1, h.2.1⟩

/-! ## C4: protocol violations terminate the runner, reply suppressed -/

/-- C4: a serviced request whose action is not one of the four recognized
actions, or whose handling of a known action raises an exception, leads to
the offending runner being forcibly terminated with no reply sent on the
request reply handle; every other runner stays in the Supervisor pool. -/
theorem c4_protocol_violation_isolated (cfg : Config) (env : Env) (now : ℚ)
    (req : Request)
    (h : knownAction req.action = false ∨
         ∃ evs e, dispatch cfg env now req = (evs, Except.error e)) :
    (serviceRequest cfg env now req).reply = none ∧
    (serviceRequest cfg env now req).terminated = true ∧
    ∀ runners : List ℕ, ∀ rid ∈ runners, rid ≠ req.runner_id →
      rid ∈ terminate_runner runners req.runner_id := by
  have hmem : ∀ runners : List ℕ, ∀ rid ∈ runners, rid ≠ req.runner_id →
      rid ∈ terminate_runner runners req.runner_id := by
    intro runners rid hin hne
    simpa [terminate_runner] using (List.mem_erase_of_ne hne).mpr hin
  rcases h with h1 | ⟨evs, e, hD⟩
  · exact ⟨by simp [serviceRequest, h1], by simp [serviceRequest, h1], hmem⟩
  · by_cases hK : knownAction req.action
    · exact ⟨by simp [serviceRequest, hK, hD], by simp [serviceRequest, hK, hD],
             hmem⟩
    · exact ⟨by simp [serviceRequest, hK], by simp [serviceRequest, hK], hmem⟩

/-- Witness for C4: a request with the unrecognized action string. -/
theorem c4_protocol_violation_isolated_witness :
    knownAction reqBogus.action = false ∧
    (serviceRequest cfgW envW 0 reqBogus).reply = none ∧
    (serviceRequest cfgW envW 0 reqBogus).terminated = true ∧
    (3 : ℕ) ∈ terminate_runner [3, 5] reqBogus.runner_id := by
  have h := c4_protocol_violation_isolated cfgW envW 0 reqBogus
    (Or.inl (by decide))
  exact ⟨by decide, h.1, h.2.1, h.2.2 [3, 5] 3 (by decide) (by decide)⟩

/-! ## C8: successful handling sends exactly one reply of the right shape -/

/-- C8: for every successfully handled request, a FLAG or LOAD request
causes exactly one reply carrying the flag token or the loaded blob to be
sent on the reply handle, and a STORE or RESULT request sends a reply
carrying no value, completing the step without terminating the runner. -/
theorem c8_success_reply_shape (cfg : Config) (env : Env) (now : ℚ)
    (req : Request) (evs : List Event) (r : Option Resp)
    (hK : knownAction req.action = true)
    (hD : dispatch cfg env now req = (evs, Except.ok r)) :
    (serviceRequest cfg env now req).reply = some r ∧
    (serviceRequest cfg env now req).terminated = false ∧
    (req.action = ACTION_FLAG → ∃ inv, r = some (Resp.flagResp inv)) ∧
    (req.action = ACTION_LOAD → ∃ blob, r = some (Resp.loadResp blob)) ∧
    ((req.action = ACTION_STORE ∨ req.action = ACTION_RESULT) → r = none) := by
  refine ⟨by simp [serviceRequest, hK, hD], by simp [serviceRequest, hK, hD],
          ?_, ?_, ?_⟩
  · intro ha
    rcases hf : handle_flag_request cfg now req.info req.param with e | inv
    · simp [dispatch, ha, hf] at hD
    · simp [dispatch, ha, hf] at hD
      exact ⟨inv, hD.2.symm⟩
  · intro ha
    rcases hl : handle_load_request env req.info req.param with ⟨evs2, res2⟩
    rcases res2 with e | blob
    · simp [dispatch, ha, ACTION_FLAG, ACTION_LOAD, hl] at hD
    · simp [dispatch, ha, ACTION_FLAG, ACTION_LOAD, hl] at hD
      exact ⟨blob, hD.2.symm⟩
  · intro ha
    rcases ha with ha | ha
    · rcases hs : handle_store_request env req.info req.param with ⟨evs2, res2⟩
      rcases res2 with e | u
      · simp [dispatch, ha, ACTION_FLAG, ACTION_LOAD, ACTION_STORE, hs] at hD
      · simp [dispatch, ha, ACTION_FLAG, ACTION_LOAD, ACTION_STORE, hs] at hD
        exact hD.2.symm
    · rcases hs : handle_result_request env req.info req.param with ⟨evs2, res2⟩
      rcases res2 with e | u
      · simp [dispatch, ha, ACTION_FLAG, ACTION_LOAD, ACTION_STORE,
              ACTION_RESULT, hs] at hD
      · simp [dispatch, ha, ACTION_FLAG, ACTION_LOAD, ACTION_STORE,
              ACTION_RESULT, hs] at hD
        exact hD.2.symm

/-- Witness for C8: a well-formed STORE request against a database snapshot
whose store call succeeds. -/
theorem c8_success_reply_shape_witness :
    knownAction reqStore.action = true ∧
    dispatch cfgW envW 0 reqStore
      = ([Event.storeState 1 ("k") ("v")], Except.ok none) ∧
    (serviceRequest cfgW envW 0 reqStore).reply = some none ∧
    (serviceRequest cfgW envW 0 reqStore).terminated = false := by
  have hD : dispatch cfgW envW 0 reqStore
      = ([Event.storeState 1 ("k") ("v")], Except.ok none) := rfl
  have h := c8_success_reply_shape cfgW envW 0 reqStore
    [Event.storeState 1 ("k") ("v")] none rfl hD
  exact ⟨rfl, hD, h.1, h.2.1⟩

/-! ## C2: a tick change terminates all runners before params and fetch -/

/-- C2: whenever a launch pass observes a current tick that is non-negative
and different from `known_tick`, all currently running runners are
terminated strictly before the new launch parameters are recomputed and
before any task for the new tick is fetched from the backlog: the trace
begins with the tick read, then `terminate_all_runners`, then the
parameter recomputation, and any `getNewTasks` call can only occur later. -/
theorem c2_tick_change_terminates_first (cfg : Config) (env : Env)
    (ls : LaunchState)
    (h0 : 0 ≤ env.get_current_tick) (hne : env.get_current_tick ≠ ls.known_tick) :
    ∃ rest, (launch_tasks cfg env ls).trace =
      Event.getCurrentTick :: Event.terminateAllRunners ::
      Event.updateLaunchParams :: rest := by
  have h0n : ¬ env.get_current_tick < 0 := not_lt.mpr h0
  unfold launch_tasks
  rw [if_neg h0n, if_pos hne]
  rcases hU : update_launch_params cfg env with e | k
  · exact ⟨[], rfl⟩
  · exact ⟨Event.getNewTasks ::
      (env.get_new_tasks (some k)).map (fun t => Event.startRunner t.team_id t.tick),
      by simp [fetchAndStart]⟩

/-- Witness for C2: the freshly constructed scheduler state
(`known_tick = -1`) observing tick `0`. -/
theorem c2_tick_change_terminates_first_witness :
    0 ≤ envW.get_current_tick ∧ envW.get_current_tick ≠ lsInit.known_tick ∧
    ∃ rest, (launch_tasks cfgW envW lsInit).trace =
      Event.getCurrentTick :: Event.terminateAllRunners ::
      Event.updateLaunchParams :: rest :=
  ⟨by decide, by decide,
   c2_tick_change_terminates_first cfgW envW lsInit (by decide) (by decide)⟩

/-! ## Characterization of the catch-up launch loop -/

/-- When the launch-parameter computation succeeds, a launch pass never
raises. -/
theorem launch_tasks_err_none (cfg : Config) (env : Env)
    (hok : ∃ k, update_launch_params cfg env = Except.ok k) (ls : LaunchState) :
    (launch_tasks cfg env ls).err = none := by
  obtain ⟨k, hk⟩ := hok
  unfold launch_tasks
  split_ifs with h1 h2
  · rfl
  · rw [hk]
    simp [fetchAndStart]
  · simp [fetchAndStart]

/-- The catch-up loop with non-failing passes performs exactly one pass per
full elapsed interval, advancing the launch instant by exactly one interval
per pass: the pass count is `floor((now - last) / interval)` (clamped at
zero) and the final launch instant is `last + passes * interval`. -/
theorem launchLoop_norm (cfg : Config) (env : Env) (now : ℚ)
    (hI : 0 < cfg.interval)
    (herr : ∀ ls, (launch_tasks cfg env ls).err = none) :
    ∀ n last ls, (⌈(now - last) / cfg.interval⌉).toNat = n →
      (launchLoop cfg env now hI last ls).err = none ∧
      (launchLoop cfg env now hI last ls).passes
        = (⌊(now - last) / cfg.interval⌋).toNat ∧
      (launchLoop cfg env now hI last ls).last
        = last + (((⌊(now - last) / cfg.interval⌋).toNat : ℕ) : ℚ) * cfg.interval := by
  intro n
  induction n using Nat.strong_induction_on with
  | _ n ih =>
    intro last ls hn
    by_cases h : cfg.interval ≤ now - last
    · have hA1 : (1 : ℚ) ≤ (now - last) / cfg.interval := (one_le_div hI).mpr h
      have hfl1 : (1 : ℤ) ≤ ⌊(now - last) / cfg.interval⌋ := by
        rw [Int.le_floor]
        exact_mod_cast hA1
      have hceil1 : (1 : ℤ) ≤ ⌈(now - last) / cfg.interval⌉ :=
        le_trans hfl1 (Int.floor_le_ceil _)
      have heqA : (now - (last + cfg.interval)) / cfg.interval
          = (now - last) / cfg.interval - 1 := by
        rw [show now - (last + cfg.interval) = now - last - cfg.interval by ring,
            sub_div, div_self (ne_of_gt hI)]
      have hmeas : (⌈(now - (last + cfg.interval)) / cfg.interval⌉).toNat = n - 1 := by
        rw [heqA, Int.ceil_sub_one, ← hn]
        omega
      have hnpos : 1 ≤ n := by
        rw [← hn]
        omega
      obtain ⟨e1, e2, e3⟩ := ih (n - 1) (by omega) (last + cfg.interval)
        (launch_tasks cfg env ls).ls hmeas
      rw [heqA, Int.floor_sub_one] at e2 e3
      rw [launchLoop, dif_pos h]
      simp only [herr ls, Option.isSome_none, Bool.false_eq_true, if_false]
      refine ⟨e1, ?_, ?_⟩
      · simp only [e2]
        omega
      · simp only [e3]
        have hcast : (((⌊(now - last) / cfg.interval⌋ - 1).toNat : ℕ) : ℚ)
            = ((⌊(now - last) / cfg.interval⌋.toNat : ℕ) : ℚ) - 1 := by
          have h1n : 1 ≤ ⌊(now - last) / cfg.interval⌋.toNat := by omega
          have h2n : (⌊(now - last) / cfg.interval⌋ - 1).toNat
              = ⌊(now - last) / cfg.interval⌋.toNat - 1 := by omega
          rw [h2n, Nat.cast_sub h1n]
          norm_num
        rw [hcast]
        ring
    · have hA : (now - last) / cfg.interval < 1 := by
        rw [div_lt_one hI]
        linarith [not_le.mp h]
      have hfl : ⌊(now - last) / cfg.interval⌋ < 1 := by
        rw [Int.floor_lt]
        exact_mod_cast hA
      have h0 : (⌊(now - last) / cfg.interval⌋).toNat = 0 := by omega
      rw [launchLoop, dif_neg h]
      refine ⟨rfl, ?_, ?_⟩
      · simp [h0]
      · rw [h0]
        norm_num

/-! ## C5: shutdown stops launch passes, requests still serviced -/

/-- C5: once the `shutting_down` flag is set, `step` performs no launch
pass even when the cadence interval has elapsed (`last_launch` does not
move), while a pending request present in the Supervisor queue is still
serviced on that step. -/
theorem c5_shutdown_stops_launches (cfg : Config) (env : Env)
    (hI : 0 < cfg.interval) (now : ℚ) (st : MasterState) (req : Request)
    (rest : List Request)
    (hsd : st.shutting_down = true)
    (helapsed : cfg.interval ≤ now - st.last_launch)
    (hq : st.queue = req :: rest) :
    (step cfg env hI now st).passes = 0 ∧
    (step cfg env hI now st).state.last_launch = st.last_launch ∧
    (step cfg env hI now st).handled = true ∧
    (step cfg env hI now st).reply = (serviceRequest cfg env now req).reply ∧
    (step cfg env hI now st).state.queue = rest := by
  rcases st with ⟨ls0, last0, sd0, q0⟩
  dsimp only at hsd hq ⊢
  subst hsd
  subst hq
  refine ⟨?_, ?_, ?_, ?_, ?_⟩ <;> simp [step]

/-! ## C6: catch-up launch passes when not shutting down -/

/-- C6: when not shutting down (and with launch parameters computable, so
that no pass raises), each `step` call performs one launch pass for every
full interval elapsed since `last_launch`, advancing `last_launch` by
exactly one interval per pass rather than to the current time, and a step
with an empty request queue still performs those passes while returning
"no request serviced". -/
theorem c6_catchup_launch_passes (cfg : Config) (env : Env)
    (hI : 0 < cfg.interval) (now : ℚ) (st : MasterState)
    (hsd : st.shutting_down = false)
    (hok : ∃ k, update_launch_params cfg env = Except.ok k) :
    (step cfg env hI now st).passes
      = (⌊(now - st.last_launch) / cfg.interval⌋).toNat ∧
    (step cfg env hI now st).state.last_launch
      = st.last_launch
        + (((step cfg env hI now st).passes : ℕ) : ℚ) * cfg.interval ∧
    (st.queue = [] → (step cfg env hI now st).handled = false) := by
  have herr := launch_tasks_err_none cfg env hok
  have hnorm := launchLoop_norm cfg env now hI herr
  rcases st with ⟨ls0, last0, sd0, q0⟩
  dsimp only at hsd ⊢
  subst hsd
  have key : ∀ ls : LaunchState,
      (launchLoop cfg env now hI last0 ls).passes
        = (⌊(now - last0) / cfg.interval⌋).toNat :=
    fun ls => (hnorm _ last0 ls rfl).2.1
  have key2 : ∀ ls : LaunchState,
      (launchLoop cfg env now hI last0 ls).last
        = last0 + (((⌊(now - last0) / cfg.interval⌋).toNat : ℕ) : ℚ) * cfg.interval :=
    fun ls => (hnorm _ last0 ls rfl).2.2
  cases q0 with
  | nil =>
    refine ⟨?_, ?_, fun _ => ?_⟩ <;> simp [step, key, key2]
  | cons req rest =>
    refine ⟨?_, ?_, fun hc => List.noConfusion hc⟩ <;> simp [step, key, key2]

/-- The state used by the C5 witness: shutting down, one pending request,
cadence overdue at `now = 10`. -/
def stW5 : MasterState :=
  { ls := lsInit, last_launch := 0, shutting_down := true, queue := [reqStore] }

/-- The state used by the C6 witness: not shutting down, empty queue,
`last_launch = 0`. -/
def stW6 : MasterState :=
  { ls := lsInit, last_launch := 0, shutting_down := false, queue := [] }

/-- Witness for C5: at `now = 10` with a 10 s interval the cadence has
elapsed, yet the shutting-down step performs zero passes and still services
the queued request. -/
theorem c5_shutdown_stops_launches_witness :
    stW5.shutting_down = true ∧
    cfgW.interval ≤ 10 - stW5.last_launch ∧
    stW5.queue = reqStore :: [] ∧
    (step cfgW envW cfgW_interval_pos 10 stW5).passes = 0 ∧
    (step cfgW envW cfgW_interval_pos 10 stW5).state.last_launch
      = stW5.last_launch ∧
    (step cfgW envW cfgW_interval_pos 10 stW5).handled = true := by
  have h := c5_shutdown_stops_launches cfgW envW cfgW_interval_pos 10 stW5
    reqStore [] rfl (by norm_num [cfgW, stW5]) rfl
  exact ⟨rfl, by norm_num [cfgW, stW5], rfl, h.1, h.2.1, h.2.2.1⟩

/-- Witness for C6: at `now = 25` with a 10 s interval and `last_launch = 0`
the step catches up the due launch passes and reports no request serviced. -/
theorem c6_catchup_launch_passes_witness :
    stW6.shutting_down = false ∧
    update_launch_params cfgW envW = Except.ok 2 ∧
    (step cfgW envW cfgW_interval_pos 25 stW6).passes
      = (⌊((25 : ℚ) - stW6.last_launch) / cfgW.interval⌋).toNat ∧
    (stW6.queue = [] → (step cfgW envW cfgW_interval_pos 25 stW6).handled = false) := by
  have hok : update_launch_params cfgW envW = Except.ok 2 := by
    norm_num [update_launch_params, localTasks, launchTimeframe,
              intervalsPerTimeframe, cfgW, envW]
  have h := c6_catchup_launch_passes cfgW envW cfgW_interval_pos 25 stW6 rfl
    ⟨2, hok⟩
  exact ⟨rfl, hok, h.1, h.2.2⟩

end CheckerMaster
